import Mathlib

/-
  Verification development for the AMQP transport common layer
  (src/iothub_client/src/iothubtransport_amqp_common.c).

  The C module is shallowly embedded: enums become inductives, the
  transport/device records become structures, external collaborators
  (device session, AMQP connection, TLS I/O, allocator, clock) are
  modelled as oracle parameters, and calls into collaborators are
  recorded as effect lists.  C strings are modelled as an address
  (the pointer) paired with their character content, because the
  duplicate-device lookup in the source compares pointers.
-/

namespace AmqpCommon

-- ---------- Constants (from the #defines at the top of the file) ----------

def DEFAULT_CBS_REQUEST_TIMEOUT_SECS : Nat := 30

def DEFAULT_DEVICE_STATE_CHANGE_TIMEOUT_SECS : Nat := 60

def DEFAULT_EVENT_SEND_TIMEOUT_SECS : Nat := 300

def DEFAULT_SAS_TOKEN_LIFETIME_SECS : Nat := 3600

def DEFAULT_SAS_TOKEN_REFRESH_TIME_SECS : Nat := 1800

def MAX_NUMBER_OF_DEVICE_FAILURES : Nat := 5

-- ---------- Enumerations ----------


-- ---------- Enumerations ----------

/-- AMQP_TRANSPORT_AUTHENTICATION_MODE from the source. -/
inductive AMQP_TRANSPORT_AUTHENTICATION_MODE
  | NOT_SET
  | CBS
  | X509
deriving DecidableEq, Repr

/-- DEVICE_STATE of the device sub-module (iothubtransport_amqp_device.h). -/
inductive DEVICE_STATE
  | STOPPED
  | STOPPING
  | STARTING
  | STARTED
  | ERROR_AUTH
  | ERROR_AUTH_TIMEOUT
  | ERROR_MSG
deriving DecidableEq, Repr

/-- AMQP_CONNECTION_STATE reported by the connection sub-module. -/
inductive AMQP_CONNECTION_STATE
  | CLOSED
  | OPENING
  | OPENED
  | ERROR
deriving DecidableEq, Repr

/-- DEVICE_AUTH_MODE passed to device_create. -/
inductive DEVICE_AUTH_MODE
  | CBS
  | X509
deriving DecidableEq, Repr

/-- D2C_EVENT_SEND_RESULT from the device sub-module. -/
inductive D2C_EVENT_SEND_RESULT
  | OK
  | ERROR_CANNOT_PARSE
  | ERROR_FAIL_SENDING
  | ERROR_TIMEOUT
  | DEVICE_DESTROYED
  | ERROR_UNKNOWN
deriving DecidableEq, Repr

/-- IOTHUB_CLIENT_CONFIRMATION_RESULT (user-visible confirmation codes). -/
inductive IOTHUB_CLIENT_CONFIRMATION_RESULT
  | OK
  | BECAUSE_DESTROY
  | MESSAGE_TIMEOUT
  | ERROR
deriving DecidableEq, Repr

/-- DEVICE_MESSAGE_DISPOSITION_RESULT forwarded to the device session. -/
inductive DEVICE_MESSAGE_DISPOSITION_RESULT
  | NONE
  | ACCEPTED
  | RELEASED
  | REJECTED
deriving DecidableEq, Repr

/-- IOTHUB_CLIENT_RESULT values surfaced by SetOption / SendMessageDisposition. -/
inductive IOTHUB_CLIENT_RESULT
  | OK
  | INVALID_ARG
  | ERROR
deriving DecidableEq, Repr

-- ---------- C strings with identity ----------


-- ---------- C strings with identity ----------

/-- A C string: the address of its buffer together with its contents.
    Pointer comparison in the source is comparison of `addr`. -/
structure CStr where
  addr : Nat
  content : String
deriving DecidableEq, Repr

-- ---------- Credential acceptance (is_device_credential_acceptable) ----------


-- ---------- Credential acceptance ----------

/-- Embedding of is_device_credential_acceptable.  The device key and SAS
    token of the IOTHUB_DEVICE_CONFIG are optional strings; the source
    only tests them against NULL. -/
def is_device_credential_acceptable (deviceKey deviceSasToken : Option String)
    (preferred_authentication_mode : AMQP_TRANSPORT_AUTHENTICATION_MODE) : Bool :=
  if deviceSasToken.isSome ∧ deviceKey.isSome then
    false
  else if preferred_authentication_mode = AMQP_TRANSPORT_AUTHENTICATION_MODE.NOT_SET then
    true
  else if preferred_authentication_mode = AMQP_TRANSPORT_AUTHENTICATION_MODE.X509 ∧
      (deviceKey.isSome ∨ deviceSasToken.isSome) then
    false
  else if preferred_authentication_mode ≠ AMQP_TRANSPORT_AUTHENTICATION_MODE.X509 ∧
      (deviceKey.isNone ∧ deviceSasToken.isNone) then
    false
  else
    true

/-- The per-device authentication mode chosen by Register for device_create
    (line 1700 of the source): CBS when a key or SAS token is given, else X509. -/
def device_config_authentication_mode (deviceKey deviceSasToken : Option String) :
    DEVICE_AUTH_MODE :=
  if deviceKey.isSome ∨ deviceSasToken.isSome then DEVICE_AUTH_MODE.CBS
  else DEVICE_AUTH_MODE.X509

/-- The credential-acceptance rules exactly as the specification words them,
    in order: both present reject; preference Unset accept; preference X509
    with key or SAS reject; preference CBS with both absent reject; else
    accept.  Used only to compare with the embedding of the source. -/
def credential_rules_spec (deviceKey deviceSasToken : Option String)
    (preference : AMQP_TRANSPORT_AUTHENTICATION_MODE) : Bool :=
  if deviceKey.isSome ∧ deviceSasToken.isSome then
    false
  else if preference = AMQP_TRANSPORT_AUTHENTICATION_MODE.NOT_SET then
    true
  else if preference = AMQP_TRANSPORT_AUTHENTICATION_MODE.X509 ∧
      (deviceKey.isSome ∨ deviceSasToken.isSome) then
    false
  else if preference = AMQP_TRANSPORT_AUTHENTICATION_MODE.CBS ∧
      (deviceKey.isNone ∧ deviceSasToken.isNone) then
    false
  else
    true

-- ---------- Send-completion mapping (get_iothub_client_confirmation_result_from,
--            on_event_send_complete) ----------


-- ---------- Send-completion mapping ----------

/-- Embedding of get_iothub_client_confirmation_result_from (the switch,
    including the default case going to ERROR). -/
def get_iothub_client_confirmation_result_from (result : D2C_EVENT_SEND_RESULT) :
    IOTHUB_CLIENT_CONFIRMATION_RESULT :=
  match result with
  | D2C_EVENT_SEND_RESULT.OK => IOTHUB_CLIENT_CONFIRMATION_RESULT.OK
  | D2C_EVENT_SEND_RESULT.ERROR_CANNOT_PARSE => IOTHUB_CLIENT_CONFIRMATION_RESULT.ERROR
  | D2C_EVENT_SEND_RESULT.ERROR_FAIL_SENDING => IOTHUB_CLIENT_CONFIRMATION_RESULT.ERROR
  | D2C_EVENT_SEND_RESULT.ERROR_TIMEOUT => IOTHUB_CLIENT_CONFIRMATION_RESULT.MESSAGE_TIMEOUT
  | D2C_EVENT_SEND_RESULT.DEVICE_DESTROYED => IOTHUB_CLIENT_CONFIRMATION_RESULT.BECAUSE_DESTROY
  | D2C_EVENT_SEND_RESULT.ERROR_UNKNOWN => IOTHUB_CLIENT_CONFIRMATION_RESULT.ERROR

/-- The counter update performed at the top of on_event_send_complete:
    increment number_of_send_event_complete_failures unless the result is
    OK or DEVICE_DESTROYED, in which case reset it to 0. -/
def update_send_complete_failures (result : D2C_EVENT_SEND_RESULT) (n : Nat) : Nat :=
  if result ≠ D2C_EVENT_SEND_RESULT.OK ∧ result ≠ D2C_EVENT_SEND_RESULT.DEVICE_DESTROYED then
    n + 1
  else
    0

/-- A sequence of on_event_send_complete invocations for one device (each
    message has a non-NULL user callback): returns the final failure counter
    and the list of confirmation codes passed to the user callback, in
    invocation order. -/
def process_send_completions (results : List D2C_EVENT_SEND_RESULT) (n : Nat) :
    Nat × List IOTHUB_CLIENT_CONFIRMATION_RESULT :=
  match results with
  | [] => (n, [])
  | r :: rest =>
    let p := process_send_completions rest (update_send_complete_failures r n)
    (p.1, get_iothub_client_confirmation_result_from r :: p.2)

-- ---------- Message disposition pipeline ----------


-- ---------- Message disposition pipeline ----------

/-- IOTHUBMESSAGE_DISPOSITION_RESULT enum values (iothub_message.h order). -/
def IOTHUBMESSAGE_ACCEPTED : Nat := 0

def IOTHUBMESSAGE_REJECTED : Nat := 1

def IOTHUBMESSAGE_ABANDONED : Nat := 2

/-- Embedding of get_device_disposition_result_from: the user verdict is a
    C enum value (any integer); unknown values fall through to RELEASED. -/
def get_device_disposition_result_from (iothubclient_disposition_result : Nat) :
    DEVICE_MESSAGE_DISPOSITION_RESULT :=
  if iothubclient_disposition_result = IOTHUBMESSAGE_ACCEPTED then
    DEVICE_MESSAGE_DISPOSITION_RESULT.ACCEPTED
  else if iothubclient_disposition_result = IOTHUBMESSAGE_ABANDONED then
    DEVICE_MESSAGE_DISPOSITION_RESULT.RELEASED
  else if iothubclient_disposition_result = IOTHUBMESSAGE_REJECTED then
    DEVICE_MESSAGE_DISPOSITION_RESULT.REJECTED
  else
    DEVICE_MESSAGE_DISPOSITION_RESULT.RELEASED

/-- MESSAGE_DISPOSITION_CONTEXT: device back-reference (by address), owned
    link-name copy, delivery number. -/
structure MESSAGE_DISPOSITION_CONTEXT where
  device_state_addr : Nat
  link_name : String
  message_id : Nat
deriving DecidableEq, Repr

/-- MESSAGE_CALLBACK_INFO: payload handle and transport context, either of
    which may be NULL. -/
structure MESSAGE_CALLBACK_INFO where
  messageHandle : Option Nat
  transportContext : Option MESSAGE_DISPOSITION_CONTEXT
deriving DecidableEq, Repr

/-- Observable actions of IoTHubTransport_AMQP_Common_SendMessageDisposition. -/
inductive DispositionEff
  | sendMessageDisposition (device_addr : Nat) (link_name : String) (message_id : Nat)
      (verdict : DEVICE_MESSAGE_DISPOSITION_RESULT)
  | destroyMessage (handle : Nat)
  | destroyCallbackInfo
  | destroyDispositionInfo
deriving DecidableEq, Repr

/-- Embedding of IoTHubTransport_AMQP_Common_SendMessageDisposition.
    `create_info_ok` models the allocations inside
    create_device_message_disposition_info_from; `send_ok` models the
    device_send_message_disposition collaborator result.  Returns the
    IOTHUB_CLIENT_RESULT and the collaborator/teardown calls in order. -/
def IoTHubTransport_AMQP_Common_SendMessageDisposition
    (message_data : Option MESSAGE_CALLBACK_INFO) (disposition : Nat)
    (create_info_ok : Bool) (send_ok : Bool) :
    IOTHUB_CLIENT_RESULT × List DispositionEff :=
  match message_data with
  | none => (IOTHUB_CLIENT_RESULT.INVALID_ARG, [])
  | some md =>
    match md.messageHandle, md.transportContext with
    | some mh, some tc =>
      let device_disposition_result := get_device_disposition_result_from disposition
      if ¬ create_info_ok then
        (IOTHUB_CLIENT_RESULT.ERROR, [])
      else if ¬ send_ok then
        (IOTHUB_CLIENT_RESULT.ERROR,
          [DispositionEff.sendMessageDisposition tc.device_state_addr tc.link_name
              tc.message_id device_disposition_result,
            DispositionEff.destroyDispositionInfo])
      else
        (IOTHUB_CLIENT_RESULT.OK,
          [DispositionEff.sendMessageDisposition tc.device_state_addr tc.link_name
              tc.message_id device_disposition_result,
            DispositionEff.destroyMessage mh,
            DispositionEff.destroyCallbackInfo,
            DispositionEff.destroyDispositionInfo])
    | _, _ => (IOTHUB_CLIENT_RESULT.INVALID_ARG, [])

/-- The device-session disposition calls contained in an effect list. -/
def dispositionSendCalls (effs : List DispositionEff) :
    List (Nat × String × Nat × DEVICE_MESSAGE_DISPOSITION_RESULT) :=
  effs.filterMap (fun e =>
    match e with
    | DispositionEff.sendMessageDisposition a l m v => some (a, l, m, v)
    | _ => none)

-- ---------- Timeout helper (is_timeout_reached) ----------


-- ---------- Timeout helper (is_timeout_reached) ----------

/-- Result of is_timeout_reached: non-zero return (failure), or the value
    written to is_timed_out. -/
inductive TIMEOUT_CHECK_RESULT
  | failure
  | timedOut
  | notTimedOut
deriving DecidableEq, Repr

/-- Embedding of is_timeout_reached.  A time_t is modelled as Option Int,
    none standing for INDEFINITE_TIME; `current_time` is the get_time
    oracle reading. -/
def is_timeout_reached (start_time : Option Int) (timeout_in_secs : Nat)
    (current_time : Option Int) : TIMEOUT_CHECK_RESULT :=
  match start_time with
  | none => TIMEOUT_CHECK_RESULT.failure
  | some st =>
    match current_time with
    | none => TIMEOUT_CHECK_RESULT.failure
    | some ct =>
      if (timeout_in_secs : Int) ≤ ct - st then TIMEOUT_CHECK_RESULT.timedOut
      else TIMEOUT_CHECK_RESULT.notTimedOut

-- ---------- Transport and device records ----------


-- ---------- Transport and device records ----------

/-- AMQP_TRANSPORT_DEVICE_INSTANCE: the fields the claims are about.  The
    collaborator handles (device_handle, iothub_client_handle,
    waiting_to_send) are opaque and carry no relevant state here; calls on
    them are recorded as effects. -/
structure DeviceInst where
  device_id : CStr
  device_state : DEVICE_STATE
  number_of_previous_failures : Nat
  number_of_send_event_complete_failures : Nat
  time_of_last_state_change : Option Int
  max_state_change_timeout_secs : Nat
deriving DecidableEq, Repr

/-- AMQP_TRANSPORT_INSTANCE.  Handle-valued fields (tls_io,
    amqp_connection, saved_tls_options) are modelled by presence flags. -/
structure Transport where
  preferred_authentication_mode : AMQP_TRANSPORT_AUTHENTICATION_MODE
  registered_devices : List DeviceInst
  is_connection_retry_required : Bool
  has_amqp_connection : Bool
  amqp_connection_state : AMQP_CONNECTION_STATE
  has_tls_io : Bool
  has_saved_tls_options : Bool
  is_trace_on : Bool
  option_sas_token_lifetime_secs : Nat
  option_sas_token_refresh_time_secs : Nat
  option_cbs_request_timeout_secs : Nat
  option_send_event_timeout_secs : Nat
deriving DecidableEq, Repr

/-- The transport produced by IoTHubTransport_AMQP_Common_Create (memset 0
    plus the explicit field initialisations). -/
def initTransport : Transport :=
  { preferred_authentication_mode := AMQP_TRANSPORT_AUTHENTICATION_MODE.NOT_SET,
    registered_devices := [],
    is_connection_retry_required := false,
    has_amqp_connection := false,
    amqp_connection_state := AMQP_CONNECTION_STATE.CLOSED,
    has_tls_io := false,
    has_saved_tls_options := false,
    is_trace_on := false,
    option_sas_token_lifetime_secs := DEFAULT_SAS_TOKEN_LIFETIME_SECS,
    option_sas_token_refresh_time_secs := DEFAULT_SAS_TOKEN_REFRESH_TIME_SECS,
    option_cbs_request_timeout_secs := DEFAULT_CBS_REQUEST_TIMEOUT_SECS,
    option_send_event_timeout_secs := DEFAULT_EVENT_SEND_TIMEOUT_SECS }

-- ---------- Registry lookup ----------


-- ---------- Registry lookup ----------

/-- Embedding of find_device_by_id_callback.  NOTE: the source compares
    the stored cloned string's buffer pointer against the match context
    pointer (STRING_c_str(device_instance->device_id) != match_context),
    so this is address comparison, not content comparison. -/
def find_device_by_id_callback (device_instance : DeviceInst) (match_context : CStr) : Bool :=
  device_instance.device_id.addr == match_context.addr

/-- Embedding of is_device_registered_ex (singlylinkedlist_find over the
    registered-devices list). -/
def is_device_registered_ex (registered_devices : List DeviceInst) (device_id : CStr) : Bool :=
  (registered_devices.find? (fun d => find_device_by_id_callback d device_id)).isSome

-- ---------- Effects (collaborator calls observable from a tick) ----------


-- ---------- Effects (collaborator calls observable from a tick) ----------

/-- DEVICE_OPTION_* names of the device sub-module. -/
inductive DEVICE_OPTION
  | SAS_TOKEN_LIFETIME_SECS
  | SAS_TOKEN_REFRESH_TIME_SECS
  | CBS_REQUEST_TIMEOUT_SECS
  | EVENT_SEND_TIMEOUT_SECS
deriving DecidableEq, Repr

/-- Calls the transport makes into its collaborators. -/
inductive Eff
  | saveTlsOptions
  | deviceStop (addr : Nat)
  | amqpConnectionDestroy
  | tlsIoDestroy
  | tlsIoCreate
  | amqpConnectionCreate
  | getSessionHandle (addr : Nat)
  | getCbsHandle (addr : Nat)
  | deviceStartAsync (addr : Nat)
  | timeoutCheck (addr : Nat)
  | sendPendingEvents (addr : Nat)
  | deviceDoWork (addr : Nat)
  | amqpConnectionDoWork
  | deviceSetOption (addr : Nat) (option : DEVICE_OPTION) (value : Nat) (ok : Bool)
deriving DecidableEq, Repr

-- ---------- Callbacks ----------


-- ---------- Callbacks ----------

/-- Embedding of on_device_state_changed_callback: save the new state and
    the get_time() reading, but only when the state actually changed. -/
def on_device_state_changed_callback (previous_state new_state : DEVICE_STATE)
    (now : Option Int) (d : DeviceInst) : DeviceInst :=
  if new_state ≠ previous_state then
    { d with device_state := new_state, time_of_last_state_change := now }
  else
    d

/-- Embedding of on_amqp_connection_state_changed: record the new state;
    on ERROR flag the connection for retry. -/
def on_amqp_connection_state_changed (previous_state new_state : AMQP_CONNECTION_STATE)
    (s : Transport) : Transport :=
  if new_state ≠ previous_state then
    let s1 := { s with amqp_connection_state := new_state }
    if new_state = AMQP_CONNECTION_STATE.ERROR then
      { s1 with is_connection_retry_required := true }
    else
      s1
  else
    s

/-- Modify the element at an index of a list, if present. -/
def modifyIdx (f : α → α) : Nat → List α → List α
  | _, [] => []
  | 0, a :: as => f a :: as
  | n + 1, a :: as => a :: modifyIdx f n as

-- ---------- Per-device tick (IoTHubTransport_AMQP_Common_Device_DoWork) ----------


-- ---------- Per-device tick ----------

/-- Environment of one per-device tick: collaborator results and the
    get_time() reading, plus the send-completion callbacks delivered by
    device_do_work during this tick. -/
structure DeviceEnv where
  get_session_ok : Bool
  get_cbs_ok : Bool
  start_ok : Bool
  now : Option Int
  stop_ok : Bool
  send_ok : Bool
  completions : List D2C_EVENT_SEND_RESULT

/-- Embedding of IoTHubTransport_AMQP_Common_Device_DoWork (WIP methods
    subsystem excluded, as it is compiled out).  Returns the updated device
    record, the int result (true = RESULT_OK) and the collaborator calls.
    A failed send_pending_events performs one synchronous
    on_event_send_complete with ERROR_FAIL_SENDING (source line 830). -/
def IoTHubTransport_AMQP_Common_Device_DoWork
    (preferred : AMQP_TRANSPORT_AUTHENTICATION_MODE) (d : DeviceInst) (env : DeviceEnv) :
    DeviceInst × Bool × List Eff :=
  let a := d.device_id.addr
  let body : DeviceInst × Bool × List Eff :=
    if d.device_state ≠ DEVICE_STATE.STARTED then
      if d.device_state = DEVICE_STATE.STOPPED then
        if ¬ env.get_session_ok then
          (d, false, [Eff.getSessionHandle a])
        else if preferred = AMQP_TRANSPORT_AUTHENTICATION_MODE.CBS ∧ ¬ env.get_cbs_ok then
          (d, false, [Eff.getSessionHandle a, Eff.getCbsHandle a])
        else
          let pre := [Eff.getSessionHandle a] ++
            (if preferred = AMQP_TRANSPORT_AUTHENTICATION_MODE.CBS then [Eff.getCbsHandle a]
             else []) ++ [Eff.deviceStartAsync a]
          if ¬ env.start_ok then (d, false, pre) else (d, true, pre)
      else if d.device_state = DEVICE_STATE.STARTING ∨
          d.device_state = DEVICE_STATE.STOPPING then
        match is_timeout_reached d.time_of_last_state_change
            d.max_state_change_timeout_secs env.now with
        | TIMEOUT_CHECK_RESULT.failure =>
          ({ d with device_state := DEVICE_STATE.ERROR_AUTH }, false, [Eff.timeoutCheck a])
        | TIMEOUT_CHECK_RESULT.timedOut =>
          ({ d with device_state := DEVICE_STATE.ERROR_AUTH }, false, [Eff.timeoutCheck a])
        | TIMEOUT_CHECK_RESULT.notTimedOut =>
          (d, true, [Eff.timeoutCheck a])
      else
        let d1 := { d with number_of_previous_failures := d.number_of_previous_failures + 1 }
        if MAX_NUMBER_OF_DEVICE_FAILURES ≤ d1.number_of_previous_failures then
          (d1, false, [])
        else if ¬ env.stop_ok then
          (d1, false, [Eff.deviceStop a])
        else
          (d1, true, [Eff.deviceStop a])
    else
      if ¬ env.send_ok then
        ({ d with
            number_of_previous_failures := d.number_of_previous_failures + 1,
            number_of_send_event_complete_failures :=
              update_send_complete_failures D2C_EVENT_SEND_RESULT.ERROR_FAIL_SENDING
                d.number_of_send_event_complete_failures },
          false, [Eff.sendPendingEvents a])
      else
        ({ d with number_of_previous_failures := 0 }, true, [Eff.sendPendingEvents a])
  let d2 := { body.1 with
    number_of_send_event_complete_failures :=
      body.1.number_of_send_event_complete_failures |>
        (fun n => env.completions.foldl (fun m r => update_send_complete_failures r m) n) }
  (d2, body.2.1, body.2.2 ++ [Eff.deviceDoWork a])

-- ---------- Connection establishment and the driver loop ----------


-- ---------- Connection establishment and the driver loop ----------

/-- Environment of one transport work tick. -/
structure DoWorkEnv where
  retrieve_options_ok : Bool
  tls_create_ok : Bool
  conn_create_ok : Bool
  device_envs : Nat → DeviceEnv

/-- Embedding of establish_amqp_connection.  Returns the updated transport,
    the int result, and the collaborator calls. -/
def establish_amqp_connection (s : Transport) (env : DoWorkEnv) :
    Transport × Bool × List Eff :=
  if s.preferred_authentication_mode = AMQP_TRANSPORT_AUTHENTICATION_MODE.NOT_SET then
    (s, false, [])
  else if ¬ s.has_tls_io ∧ ¬ env.tls_create_ok then
    (s, false, [Eff.tlsIoCreate])
  else
    let createEffs := (if ¬ s.has_tls_io then [Eff.tlsIoCreate] else []) ++
      [Eff.amqpConnectionCreate]
    let s1 := { s with has_tls_io := true,
                       amqp_connection_state := AMQP_CONNECTION_STATE.CLOSED }
    if ¬ env.conn_create_ok then
      (s1, false, createEffs)
    else
      ({ s1 with has_amqp_connection := true }, true, createEffs)

/-- The per-device loop of IoTHubTransport_AMQP_Common_DoWork when the
    connection is OPENED.  Carries the retry flag; a device whose
    send-complete failure counter has reached the budget sets the flag and
    is skipped; otherwise the per-device tick runs and a failing tick with
    the per-device failure counter at the budget sets the flag. -/
def DoWork_device_loop (preferred : AMQP_TRANSPORT_AUTHENTICATION_MODE)
    (envs : Nat → DeviceEnv) :
    List DeviceInst → Nat → Bool → List DeviceInst × Bool × List Eff
  | [], _, retry => ([], retry, [])
  | d :: rest, i, retry =>
    if MAX_NUMBER_OF_DEVICE_FAILURES ≤ d.number_of_send_event_complete_failures then
      let r := DoWork_device_loop preferred envs rest (i + 1) true
      (d :: r.1, r.2.1, r.2.2)
    else
      let t := IoTHubTransport_AMQP_Common_Device_DoWork preferred d (envs i)
      let retry1 :=
        if ¬ t.2.1 ∧ MAX_NUMBER_OF_DEVICE_FAILURES ≤ t.1.number_of_previous_failures then
          true
        else retry
      let r := DoWork_device_loop preferred envs rest (i + 1) retry1
      (t.1 :: r.1, r.2.1, t.2.2 ++ r.2.2)

/-- Embedding of prepare_for_connection_retry: save the TLS options
    best-effort, stop every non-stopped device, zero both failure counters
    of every registered device, destroy the connection object and then the
    TLS stream (xio_destroy is guarded by NULL in the source). -/
def prepare_for_connection_retry (s : Transport) (retrieve_options_ok : Bool) :
    Transport × List Eff :=
  let saved := if s.has_tls_io ∧ retrieve_options_ok then true
    else s.has_saved_tls_options
  let stop_effs := (s.registered_devices.filter
      (fun d => ¬ d.device_state = DEVICE_STATE.STOPPED)).map
    (fun d => Eff.deviceStop d.device_id.addr)
  let devices := s.registered_devices.map
    (fun d => { d with number_of_previous_failures := 0,
                       number_of_send_event_complete_failures := 0 })
  ({ s with has_saved_tls_options := saved,
            registered_devices := devices,
            has_amqp_connection := false,
            amqp_connection_state := AMQP_CONNECTION_STATE.CLOSED,
            has_tls_io := false },
    Eff.saveTlsOptions :: (stop_effs ++ ([Eff.amqpConnectionDestroy] ++
      (if s.has_tls_io then [Eff.tlsIoDestroy] else []))))

/-- The non-retry body of IoTHubTransport_AMQP_Common_DoWork: if devices
    are registered, establish the connection when absent, and when the
    connection is OPENED run the per-device loop. -/
def DoWork_main_step (s : Transport) (env : DoWorkEnv) : Transport × List Eff :=
  if s.registered_devices.isEmpty then
    (s, [])
  else if ¬ s.has_amqp_connection then
    let e := establish_amqp_connection s env
    (e.1, e.2.2)
  else if s.amqp_connection_state = AMQP_CONNECTION_STATE.OPENED then
    let r := DoWork_device_loop s.preferred_authentication_mode env.device_envs
      s.registered_devices 0 s.is_connection_retry_required
    ({ s with registered_devices := r.1, is_connection_retry_required := r.2.1 }, r.2.2)
  else
    (s, [])

/-- Embedding of IoTHubTransport_AMQP_Common_DoWork.  On a retry-flagged
    tick, prepare_for_connection_retry runs and the flag is cleared by the
    caller; otherwise the main step runs; in either case the tick ends by
    calling amqp_connection_do_work when a connection exists.  State-change
    callbacks fired by collaborators during the tick are modelled as
    separate interleaved operations, which over-approximates the set of
    reachable states. -/
def IoTHubTransport_AMQP_Common_DoWork (s : Transport) (env : DoWorkEnv) :
    Transport × List Eff :=
  let step : Transport × List Eff :=
    if s.is_connection_retry_required then
      let p := prepare_for_connection_retry s env.retrieve_options_ok
      ({ p.1 with is_connection_retry_required := false }, p.2)
    else
      DoWork_main_step s env
  if step.1.has_amqp_connection then
    (step.1, step.2 ++ [Eff.amqpConnectionDoWork])
  else
    step

-- ---------- Register / Unregister ----------


-- ---------- Register / Unregister ----------

/-- Allocator and collaborator results consumed by one Register call.
    `fresh_addr` is the buffer address of the STRING_construct clone of the
    device id. -/
structure RegisterEnv where
  malloc_ok : Bool
  string_construct_ok : Bool
  fresh_addr : Nat
  device_create_ok : Bool
  replicate_ok : Bool
  list_add_ok : Bool

/-- Embedding of IoTHubTransport_AMQP_Common_Register (WIP methods
    subsystem excluded).  The other NULL-parameter checks (handle, client
    handle, waitingToSend) concern parameters outside this model.  Returns
    the updated transport and whether a non-NULL device handle was
    returned.  On any failure the transport is unchanged. -/
def IoTHubTransport_AMQP_Common_Register (s : Transport) (deviceId : Option CStr)
    (deviceKey deviceSasToken : Option String) (env : RegisterEnv) : Transport × Bool :=
  match deviceId with
  | none => (s, false)
  | some did =>
    if is_device_registered_ex s.registered_devices did then
      (s, false)
    else if ¬ is_device_credential_acceptable deviceKey deviceSasToken
        s.preferred_authentication_mode then
      (s, false)
    else if ¬ env.malloc_ok then
      (s, false)
    else if ¬ env.string_construct_ok then
      (s, false)
    else if ¬ env.device_create_ok then
      (s, false)
    else if ¬ env.replicate_ok then
      (s, false)
    else if ¬ env.list_add_ok then
      (s, false)
    else
      let is_first_device_being_registered := s.registered_devices.isEmpty
      let auth := device_config_authentication_mode deviceKey deviceSasToken
      let newdev : DeviceInst :=
        { device_id := { addr := env.fresh_addr, content := did.content },
          device_state := DEVICE_STATE.STOPPED,
          number_of_previous_failures := 0,
          number_of_send_event_complete_failures := 0,
          time_of_last_state_change := some 0,
          max_state_change_timeout_secs := DEFAULT_DEVICE_STATE_CHANGE_TIMEOUT_SECS }
      let mode :=
        if s.preferred_authentication_mode = AMQP_TRANSPORT_AUTHENTICATION_MODE.NOT_SET ∧
            is_first_device_being_registered then
          (if auth = DEVICE_AUTH_MODE.CBS then AMQP_TRANSPORT_AUTHENTICATION_MODE.CBS
           else AMQP_TRANSPORT_AUTHENTICATION_MODE.X509)
        else s.preferred_authentication_mode
      ({ s with registered_devices := s.registered_devices ++ [newdev],
                preferred_authentication_mode := mode }, true)

/-- Embedding of IoTHubTransport_AMQP_Common_Unregister: the handle's own
    device id (the clone) is looked up with is_device_registered_ex and the
    found list item removed; returns whether removal happened. -/
def IoTHubTransport_AMQP_Common_Unregister (s : Transport) (device_id : CStr) :
    Transport × Bool :=
  if is_device_registered_ex s.registered_devices device_id then
    ({ s with registered_devices :=
        s.registered_devices.eraseP (fun d => find_device_by_id_callback d device_id) },
      true)
  else
    (s, false)

-- ---------- SetOption ----------


-- ---------- SetOption ----------

/-- The option names the transport recognises; OTHER covers every name
    forwarded verbatim to the TLS stream. -/
inductive OPTION_NAME
  | SAS_TOKEN_LIFETIME
  | SAS_TOKEN_REFRESH_TIME
  | CBS_REQUEST_TIMEOUT
  | EVENT_SEND_TIMEOUT_SECS
  | LOG_TRACE
  | X509_CERT
  | X509_PRIVATE_KEY
  | OTHER (name : String)
deriving DecidableEq, Repr

/-- Embedding of get_device_option_name_from. -/
def get_device_option_name_from : OPTION_NAME → Option DEVICE_OPTION
  | OPTION_NAME.SAS_TOKEN_LIFETIME => some DEVICE_OPTION.SAS_TOKEN_LIFETIME_SECS
  | OPTION_NAME.SAS_TOKEN_REFRESH_TIME => some DEVICE_OPTION.SAS_TOKEN_REFRESH_TIME_SECS
  | OPTION_NAME.CBS_REQUEST_TIMEOUT => some DEVICE_OPTION.CBS_REQUEST_TIMEOUT_SECS
  | OPTION_NAME.EVENT_SEND_TIMEOUT_SECS => some DEVICE_OPTION.EVENT_SEND_TIMEOUT_SECS
  | _ => none

/-- Collaborator results consumed by one SetOption call;
    `device_set_option_ok i` is the result of device_set_option on the
    i-th registered device. -/
structure SetOptionEnv where
  device_set_option_ok : Nat → Bool
  set_logging_ok : Bool
  tls_create_ok : Bool
  xio_setoption_ok : Bool
  retrieve_options_ok : Bool

/-- The iteration inside IoTHubTransport_AMQP_Common_Device_SetOption:
    device_set_option on each registered device in order, stopping after
    the first failure (which still receives the call). -/
def device_set_option_loop (dopt : DEVICE_OPTION) (value : Nat) (ok : Nat → Bool) :
    Nat → List DeviceInst → Bool × List Eff
  | _, [] => (true, [])
  | i, d :: rest =>
    if ¬ ok i then
      (false, [Eff.deviceSetOption d.device_id.addr dopt value false])
    else
      let r := device_set_option_loop dopt value ok (i + 1) rest
      (r.1, Eff.deviceSetOption d.device_id.addr dopt value true :: r.2)

/-- Embedding of IoTHubTransport_AMQP_Common_Device_SetOption. -/
def IoTHubTransport_AMQP_Common_Device_SetOption (s : Transport) (option : OPTION_NAME)
    (value : Nat) (ok : Nat → Bool) : Bool × List Eff :=
  match get_device_option_name_from option with
  | none => (false, [])
  | some dopt => device_set_option_loop dopt value ok 0 s.registered_devices

/-- The x509 / pass-through tail of IoTHubTransport_AMQP_Common_SetOption. -/
def setOption_x509_or_generic (s : Transport) (is_x509 : Bool) (env : SetOptionEnv) :
    Transport × IOTHUB_CLIENT_RESULT × List Eff :=
  let locked : Transport × IOTHUB_CLIENT_RESULT :=
    if is_x509 then
      if s.preferred_authentication_mode = AMQP_TRANSPORT_AUTHENTICATION_MODE.NOT_SET then
        ({ s with preferred_authentication_mode := AMQP_TRANSPORT_AUTHENTICATION_MODE.X509 },
          IOTHUB_CLIENT_RESULT.OK)
      else if s.preferred_authentication_mode ≠ AMQP_TRANSPORT_AUTHENTICATION_MODE.X509 then
        (s, IOTHUB_CLIENT_RESULT.INVALID_ARG)
      else
        (s, IOTHUB_CLIENT_RESULT.OK)
    else
      (s, IOTHUB_CLIENT_RESULT.OK)
  if locked.2 = IOTHUB_CLIENT_RESULT.INVALID_ARG then
    (locked.1, IOTHUB_CLIENT_RESULT.INVALID_ARG, [])
  else if ¬ locked.1.has_tls_io ∧ ¬ env.tls_create_ok then
    (locked.1, IOTHUB_CLIENT_RESULT.ERROR, [Eff.tlsIoCreate])
  else
    let effs := if ¬ locked.1.has_tls_io then [Eff.tlsIoCreate] else []
    let s2 := { locked.1 with has_tls_io := true }
    if ¬ env.xio_setoption_ok then
      (s2, IOTHUB_CLIENT_RESULT.ERROR, effs)
    else
      let s3 := { s2 with has_saved_tls_options :=
          (if env.retrieve_options_ok then true else s2.has_saved_tls_options) }
      (s3, IOTHUB_CLIENT_RESULT.OK, effs ++ [Eff.saveTlsOptions])

/-- Embedding of IoTHubTransport_AMQP_Common_SetOption.  `num_value` is the
    dereferenced size_t for the numeric options, `bool_value` the
    dereferenced bool for logtrace (the C passes an untyped pointer). -/
def IoTHubTransport_AMQP_Common_SetOption (s : Transport) (option : OPTION_NAME)
    (num_value : Nat) (bool_value : Bool) (env : SetOptionEnv) :
    Transport × IOTHUB_CLIENT_RESULT × List Eff :=
  match option with
  | OPTION_NAME.SAS_TOKEN_LIFETIME =>
    let s1 := { s with option_sas_token_lifetime_secs := num_value }
    let r := IoTHubTransport_AMQP_Common_Device_SetOption s1 option num_value
      env.device_set_option_ok
    (s1, (if r.1 then IOTHUB_CLIENT_RESULT.OK else IOTHUB_CLIENT_RESULT.ERROR), r.2)
  | OPTION_NAME.SAS_TOKEN_REFRESH_TIME =>
    let s1 := { s with option_sas_token_refresh_time_secs := num_value }
    let r := IoTHubTransport_AMQP_Common_Device_SetOption s1 option num_value
      env.device_set_option_ok
    (s1, (if r.1 then IOTHUB_CLIENT_RESULT.OK else IOTHUB_CLIENT_RESULT.ERROR), r.2)
  | OPTION_NAME.CBS_REQUEST_TIMEOUT =>
    let s1 := { s with option_cbs_request_timeout_secs := num_value }
    let r := IoTHubTransport_AMQP_Common_Device_SetOption s1 option num_value
      env.device_set_option_ok
    (s1, (if r.1 then IOTHUB_CLIENT_RESULT.OK else IOTHUB_CLIENT_RESULT.ERROR), r.2)
  | OPTION_NAME.EVENT_SEND_TIMEOUT_SECS =>
    let s1 := { s with option_send_event_timeout_secs := num_value }
    let r := IoTHubTransport_AMQP_Common_Device_SetOption s1 option num_value
      env.device_set_option_ok
    (s1, (if r.1 then IOTHUB_CLIENT_RESULT.OK else IOTHUB_CLIENT_RESULT.ERROR), r.2)
  | OPTION_NAME.LOG_TRACE =>
    let s1 := { s with is_trace_on := bool_value }
    if s1.has_amqp_connection ∧ ¬ env.set_logging_ok then
      (s1, IOTHUB_CLIENT_RESULT.ERROR, [])
    else
      (s1, IOTHUB_CLIENT_RESULT.OK, [])
  | OPTION_NAME.X509_CERT => setOption_x509_or_generic s true env
  | OPTION_NAME.X509_PRIVATE_KEY => setOption_x509_or_generic s true env
  | OPTION_NAME.OTHER _ => setOption_x509_or_generic s false env

-- ---------- The operation alphabet and reachability ----------

/-- The transport's stored default for each device-scoped option name. -/
def stored_device_default (s : Transport) : OPTION_NAME → Option Nat
  | OPTION_NAME.SAS_TOKEN_LIFETIME => some s.option_sas_token_lifetime_secs
  | OPTION_NAME.SAS_TOKEN_REFRESH_TIME => some s.option_sas_token_refresh_time_secs
  | OPTION_NAME.CBS_REQUEST_TIMEOUT => some s.option_cbs_request_timeout_secs
  | OPTION_NAME.EVENT_SEND_TIMEOUT_SECS => some s.option_send_event_timeout_secs
  | _ => none


-- ---------- The operation alphabet and reachability ----------

/-- One externally triggered operation on a transport, with the
    environment nondeterminism it consumes. -/
inductive Op
  | register (deviceId : Option CStr) (deviceKey deviceSasToken : Option String)
      (env : RegisterEnv)
  | unregister (device_id : CStr)
  | doWork (env : DoWorkEnv)
  | setOption (option : OPTION_NAME) (num_value : Nat) (bool_value : Bool)
      (env : SetOptionEnv)
  | deviceStateChanged (idx : Nat) (previous_state new_state : DEVICE_STATE)
      (now : Option Int)
  | connStateChanged (previous_state new_state : AMQP_CONNECTION_STATE)
  | eventSendComplete (idx : Nat) (result : D2C_EVENT_SEND_RESULT)

/-- The body of on_event_send_complete as it acts on the device record:
    only the consecutive send-complete failure counter changes. -/
def applyEventSendComplete (r : D2C_EVENT_SEND_RESULT) (d : DeviceInst) : DeviceInst :=
  { d with number_of_send_event_complete_failures :=
      update_send_complete_failures r d.number_of_send_event_complete_failures }

/-- The state reached by one operation. -/
def applyOp (s : Transport) : Op → Transport
  | Op.register did key sas env =>
    (IoTHubTransport_AMQP_Common_Register s did key sas env).1
  | Op.unregister did => (IoTHubTransport_AMQP_Common_Unregister s did).1
  | Op.doWork env => (IoTHubTransport_AMQP_Common_DoWork s env).1
  | Op.setOption opt nv bv env => (IoTHubTransport_AMQP_Common_SetOption s opt nv bv env).1
  | Op.deviceStateChanged idx prev new now =>
    { s with registered_devices :=
        modifyIdx (on_device_state_changed_callback prev new now) idx s.registered_devices }
  | Op.connStateChanged prev new => on_amqp_connection_state_changed prev new s
  | Op.eventSendComplete idx r =>
    { s with registered_devices :=
        modifyIdx (applyEventSendComplete r) idx s.registered_devices }

/-- States reachable from the freshly created transport. -/
inductive Reachable : Transport → Prop
  | init : Reachable initTransport
  | step {s : Transport} (op : Op) : Reachable s → Reachable (applyOp s op)


-- ---------- Invariant and classification predicates ----------

/-- The two-part failure-counter invariant: every registered device is
    within the budget, and when no retry is pending every device is
    strictly below it (a device that reaches the budget always leaves a
    pending retry behind). -/
def FailuresInvariant (s : Transport) : Prop :=
  (∀ d ∈ s.registered_devices, d.number_of_previous_failures ≤ 5) ∧
  (s.is_connection_retry_required = false →
    ∀ d ∈ s.registered_devices, d.number_of_previous_failures ≤ 4)

/-- The collaborator calls that constitute per-device work in a tick:
    device start (with its session/CBS handle fetches), the state-change
    timeout check, event draining, and the per-device device_do_work call
    that ends every per-device tick (the failure-handling branch is
    additionally witnessed by the zeroed counters). -/
def isPerDeviceWork : Eff → Bool
  | Eff.getSessionHandle _ => true
  | Eff.getCbsHandle _ => true
  | Eff.deviceStartAsync _ => true
  | Eff.timeoutCheck _ => true
  | Eff.sendPendingEvents _ => true
  | Eff.deviceDoWork _ => true
  | _ => false


-- ---------- Concrete states and environments used by witnesses ----------

/-- Allocation environment for the first registration in the C1 run. -/
def c1_env_first : RegisterEnv :=
  { malloc_ok := true, string_construct_ok := true, fresh_addr := 100,
    device_create_ok := true, replicate_ok := true, list_add_ok := true }

/-- Allocation environment for the second registration in the C1 run. -/
def c1_env_second : RegisterEnv :=
  { malloc_ok := true, string_construct_ok := true, fresh_addr := 200,
    device_create_ok := true, replicate_ok := true, list_add_ok := true }

/-- The transport after registering a device with id "device1"
    (caller string at address 10, stored clone at address 100). -/
def c1_state_one : Transport :=
  (IoTHubTransport_AMQP_Common_Register initTransport
    (some { addr := 10, content := "device1" }) (some "key1") none c1_env_first).1

/-- A SetOption environment in which every collaborator call succeeds. -/
def allOkSetOptionEnv : SetOptionEnv :=
  { device_set_option_ok := fun _ => true, set_logging_ok := true,
    tls_create_ok := true, xio_setoption_ok := true, retrieve_options_ok := true }

/-- A per-device tick environment in which every collaborator call
    succeeds, the clock reads 0, and no completions arrive. -/
def allOkDeviceEnv : DeviceEnv :=
  { get_session_ok := true, get_cbs_ok := true, start_ok := true, now := some 0,
    stop_ok := true, send_ok := true, completions := [] }

/-- A work-tick environment in which every collaborator call succeeds. -/
def allOkDoWorkEnv : DoWorkEnv :=
  { retrieve_options_ok := true, tls_create_ok := true, conn_create_ok := true,
    device_envs := fun _ => allOkDeviceEnv }

/-- A Register environment in which every allocation succeeds and the
    cloned id string is placed at the given address. -/
def allOkRegisterEnv (fresh_addr : Nat) : RegisterEnv :=
  { malloc_ok := true, string_construct_ok := true, fresh_addr := fresh_addr,
    device_create_ok := true, replicate_ok := true, list_add_ok := true }

/-- The operations leading to a reachable state with one CBS device whose
    consecutive send-complete failure counter has reached the budget of 5
    while the connection is opened and no retry is pending. -/
def c6_ops : List Op :=
  [Op.register (some { addr := 10, content := "d1" }) (some "k") none (allOkRegisterEnv 100),
   Op.doWork allOkDoWorkEnv,
   Op.connStateChanged AMQP_CONNECTION_STATE.CLOSED AMQP_CONNECTION_STATE.OPENED,
   Op.eventSendComplete 0 D2C_EVENT_SEND_RESULT.ERROR_TIMEOUT,
   Op.eventSendComplete 0 D2C_EVENT_SEND_RESULT.ERROR_TIMEOUT,
   Op.eventSendComplete 0 D2C_EVENT_SEND_RESULT.ERROR_TIMEOUT,
   Op.eventSendComplete 0 D2C_EVENT_SEND_RESULT.ERROR_TIMEOUT,
   Op.eventSendComplete 0 D2C_EVENT_SEND_RESULT.ERROR_TIMEOUT]

/-- The reachable state produced by c6_ops. -/
def c6_state : Transport := c6_ops.foldl applyOp initTransport

/-- A transport in the middle of operation, flagged for connection retry,
    with one started device (with nonzero failure counters) and one
    stopped device. -/
def c7_state : Transport :=
  { preferred_authentication_mode := AMQP_TRANSPORT_AUTHENTICATION_MODE.CBS,
    registered_devices :=
      [{ device_id := { addr := 100, content := "d1" },
         device_state := DEVICE_STATE.STARTED,
         number_of_previous_failures := 3,
         number_of_send_event_complete_failures := 5,
         time_of_last_state_change := some 10,
         max_state_change_timeout_secs := 60 },
       { device_id := { addr := 200, content := "d2" },
         device_state := DEVICE_STATE.STOPPED,
         number_of_previous_failures := 0,
         number_of_send_event_complete_failures := 0,
         time_of_last_state_change := some 0,
         max_state_change_timeout_secs := 60 }],
    is_connection_retry_required := true,
    has_amqp_connection := true,
    amqp_connection_state := AMQP_CONNECTION_STATE.OPENED,
    has_tls_io := true,
    has_saved_tls_options := false,
    is_trace_on := false,
    option_sas_token_lifetime_secs := 3600,
    option_sas_token_refresh_time_secs := 1800,
    option_cbs_request_timeout_secs := 30,
    option_send_event_timeout_secs := 300 }

/-- A transport with two registered devices used for the C10 witness. -/
def c10_state : Transport :=
  { preferred_authentication_mode := AMQP_TRANSPORT_AUTHENTICATION_MODE.CBS,
    registered_devices :=
      [{ device_id := { addr := 100, content := "d1" },
         device_state := DEVICE_STATE.STARTED,
         number_of_previous_failures := 0,
         number_of_send_event_complete_failures := 0,
         time_of_last_state_change := some 0,
         max_state_change_timeout_secs := 60 },
       { device_id := { addr := 200, content := "d2" },
         device_state := DEVICE_STATE.STOPPED,
         number_of_previous_failures := 0,
         number_of_send_event_complete_failures := 0,
         time_of_last_state_change := some 0,
         max_state_change_timeout_secs := 60 }],
    is_connection_retry_required := false,
    has_amqp_connection := true,
    amqp_connection_state := AMQP_CONNECTION_STATE.OPENED,
    has_tls_io := true,
    has_saved_tls_options := false,
    is_trace_on := false,
    option_sas_token_lifetime_secs := 3600,
    option_sas_token_refresh_time_secs := 1800,
    option_cbs_request_timeout_secs := 30,
    option_send_event_timeout_secs := 300 }

/-- A SetOption environment in which device_set_option succeeds only on
    the first registered device. -/
def c10_env : SetOptionEnv :=
  { device_set_option_ok := fun j => j == 0, set_logging_ok := true,
    tls_create_ok := true, xio_setoption_ok := true, retrieve_options_ok := true }


-- ====================================================================
-- Helper theorems
-- ====================================================================

/-- Folding a list of operations preserves reachability. -/
theorem Reachable_foldl (ops : List Op) :
    ∀ s : Transport, Reachable s → Reachable (ops.foldl applyOp s) := by
  induction ops with
  | nil => intro s h; exact h
  | cons op rest ih => intro s h; exact ih _ (Reachable.step op h)

-- ====================================================================
-- Claim theorems
-- ====================================================================

/-- establish_amqp_connection never writes the preferred mode. -/
theorem establish_preserves_auth_mode (s : Transport) (env : DoWorkEnv) :
    (establish_amqp_connection s env).1.preferred_authentication_mode =
      s.preferred_authentication_mode := by
  unfold establish_amqp_connection
  split_ifs <;> rfl

/-- The non-retry DoWork body never writes the preferred mode. -/
theorem DoWork_main_step_preserves_auth_mode (s : Transport) (env : DoWorkEnv) :
    (DoWork_main_step s env).1.preferred_authentication_mode =
      s.preferred_authentication_mode := by
  unfold DoWork_main_step
  split_ifs <;> simp [establish_preserves_auth_mode]

/-- A work tick never writes the preferred mode. -/
theorem DoWork_preserves_auth_mode (s : Transport) (env : DoWorkEnv) :
    (IoTHubTransport_AMQP_Common_DoWork s env).1.preferred_authentication_mode =
      s.preferred_authentication_mode := by
  unfold IoTHubTransport_AMQP_Common_DoWork
  by_cases hr : s.is_connection_retry_required
  all_goals
    simp [hr, prepare_for_connection_retry, DoWork_main_step_preserves_auth_mode]
  all_goals split_ifs
  all_goals
    simp [prepare_for_connection_retry, DoWork_main_step_preserves_auth_mode]

/-- The x509/pass-through SetOption tail never changes an already-set
    preferred mode (it only writes X509 over NOT_SET). -/
theorem setOption_x509_or_generic_preserves_auth_mode (s : Transport) (is_x509 : Bool)
    (env : SetOptionEnv)
    (h : s.preferred_authentication_mode ≠ AMQP_TRANSPORT_AUTHENTICATION_MODE.NOT_SET) :
    (setOption_x509_or_generic s is_x509 env).1.preferred_authentication_mode =
      s.preferred_authentication_mode := by
  unfold setOption_x509_or_generic
  simp only [h, if_false]
  split_ifs <;> simp_all

/-- A single operation never changes an already-set preferred
    authentication mode: Register only writes it when it is NOT_SET (and
    this is the first device), the x509 options only write it when it is
    NOT_SET, and nothing else writes it. -/
theorem applyOp_preserves_auth_mode (s : Transport) (op : Op)
    (h : s.preferred_authentication_mode ≠ AMQP_TRANSPORT_AUTHENTICATION_MODE.NOT_SET) :
    (applyOp s op).preferred_authentication_mode = s.preferred_authentication_mode := by
  cases op with
  | register did key sas env =>
    cases did with
    | none => rfl
    | some d =>
      simp only [applyOp, IoTHubTransport_AMQP_Common_Register]
      split_ifs <;> simp_all
  | unregister did =>
    simp only [applyOp, IoTHubTransport_AMQP_Common_Unregister]
    split_ifs <;> rfl
  | doWork env => exact DoWork_preserves_auth_mode s env
  | setOption opt nv bv env =>
    cases opt with
    | SAS_TOKEN_LIFETIME => rfl
    | SAS_TOKEN_REFRESH_TIME => rfl
    | CBS_REQUEST_TIMEOUT => rfl
    | EVENT_SEND_TIMEOUT_SECS => rfl
    | LOG_TRACE =>
      simp only [applyOp, IoTHubTransport_AMQP_Common_SetOption]
      split_ifs <;> rfl
    | X509_CERT => exact setOption_x509_or_generic_preserves_auth_mode s true env h
    | X509_PRIVATE_KEY => exact setOption_x509_or_generic_preserves_auth_mode s true env h
    | OTHER name => exact setOption_x509_or_generic_preserves_auth_mode s false env h
  | deviceStateChanged idx prev new now => rfl
  | connStateChanged prev new =>
    simp only [applyOp, on_amqp_connection_state_changed]
    split_ifs <;> rfl
  | eventSendComplete idx r => rfl

theorem Device_DoWork_prev_failures (pref : AMQP_TRANSPORT_AUTHENTICATION_MODE)
    (d : DeviceInst) (env : DeviceEnv)
    (h : d.number_of_previous_failures ≤ 4) :
    (IoTHubTransport_AMQP_Common_Device_DoWork pref d env).1.number_of_previous_failures ≤ 5 ∧
    ((IoTHubTransport_AMQP_Common_Device_DoWork pref d env).1.number_of_previous_failures = 5 →
      (IoTHubTransport_AMQP_Common_Device_DoWork pref d env).2.1 = false) := by
  cases hds : d.device_state <;>
    simp only [IoTHubTransport_AMQP_Common_Device_DoWork, hds] <;>
    split_ifs <;>
    (try split) <;>
    simp_all [MAX_NUMBER_OF_DEVICE_FAILURES] <;>
    omega

theorem Device_DoWork_device_id (pref : AMQP_TRANSPORT_AUTHENTICATION_MODE)
    (d : DeviceInst) (env : DeviceEnv) :
    (IoTHubTransport_AMQP_Common_Device_DoWork pref d env).1.device_id = d.device_id := by
  cases hds : d.device_state <;>
    simp only [IoTHubTransport_AMQP_Common_Device_DoWork, hds] <;>
    split_ifs <;>
    (try split) <;>
    simp_all

theorem DoWork_device_loop_retry_mono (pref : AMQP_TRANSPORT_AUTHENTICATION_MODE)
    (envs : Nat → DeviceEnv) :
    ∀ (devices : List DeviceInst) (i : Nat),
      (DoWork_device_loop pref envs devices i true).2.1 = true := by
  intro devices
  induction devices with
  | nil => intro i; rfl
  | cons d rest ih =>
    intro i
    simp only [DoWork_device_loop]
    split_ifs <;> exact ih (i + 1)

theorem DoWork_device_loop_counters (pref : AMQP_TRANSPORT_AUTHENTICATION_MODE)
    (envs : Nat → DeviceEnv) :
    ∀ (devices : List DeviceInst) (i : Nat) (retry : Bool),
      (∀ d ∈ devices, d.number_of_previous_failures ≤ 4) →
      (∀ d ∈ (DoWork_device_loop pref envs devices i retry).1,
          d.number_of_previous_failures ≤ 5) ∧
        ((DoWork_device_loop pref envs devices i retry).2.1 = false →
          ∀ d ∈ (DoWork_device_loop pref envs devices i retry).1,
            d.number_of_previous_failures ≤ 4) := by
  intro devices
  induction devices with
  | nil =>
    intro i retry hall
    constructor
    · intro d hd
      cases hd
    · intro _ d hd
      cases hd
  | cons d rest ih =>
    intro i retry hall
    have hd4 : d.number_of_previous_failures ≤ 4 := hall d (List.mem_cons_self d rest)
    have hrest : ∀ x ∈ rest, x.number_of_previous_failures ≤ 4 :=
      fun x hx => hall x (List.mem_cons_of_mem d hx)
    simp only [DoWork_device_loop]
    split_ifs with h1 h2
    · -- skip branch, accumulator forced to true
      obtain ⟨ih1, _⟩ := ih (i + 1) true hrest
      refine ⟨?_, ?_⟩
      · intro x hx
        rcases List.mem_cons.mp hx with rfl | hx
        · omega
        · exact ih1 x hx
      · intro hf
        rw [DoWork_device_loop_retry_mono pref envs rest (i + 1)] at hf
        cases hf
    · -- tick branch, budget hit, accumulator forced to true
      obtain ⟨ih1, _⟩ := ih (i + 1) true hrest
      obtain ⟨hb1, _⟩ := Device_DoWork_prev_failures pref d (envs i) hd4
      refine ⟨?_, ?_⟩
      · intro x hx
        rcases List.mem_cons.mp hx with rfl | hx
        · exact hb1
        · exact ih1 x hx
      · intro hf
        rw [DoWork_device_loop_retry_mono pref envs rest (i + 1)] at hf
        cases hf
    · -- tick branch, accumulator unchanged
      obtain ⟨ih1, ih2⟩ := ih (i + 1) retry hrest
      obtain ⟨hb1, hb2⟩ := Device_DoWork_prev_failures pref d (envs i) hd4
      refine ⟨?_, ?_⟩
      · intro x hx
        rcases List.mem_cons.mp hx with rfl | hx
        · exact hb1
        · exact ih1 x hx
      · intro hf x hx
        rcases List.mem_cons.mp hx with rfl | hx
        · have h5 : (IoTHubTransport_AMQP_Common_Device_DoWork pref d
              (envs i)).1.number_of_previous_failures ≠ 5 := by
            intro h5
            exact h2 ⟨by simp [hb2 h5], by rw [h5]; decide⟩
          omega
        · exact ih2 hf x hx

theorem DoWork_device_loop_ids (pref : AMQP_TRANSPORT_AUTHENTICATION_MODE)
    (envs : Nat → DeviceEnv) :
    ∀ (devices : List DeviceInst) (i : Nat) (retry : Bool),
      ((DoWork_device_loop pref envs devices i retry).1).map (fun d => d.device_id) =
        devices.map (fun d => d.device_id) := by
  intro devices
  induction devices with
  | nil => intro i retry; rfl
  | cons d rest ih =>
    intro i retry
    simp only [DoWork_device_loop]
    split_ifs <;> simp [ih, Device_DoWork_device_id]

theorem DoWork_device_loop_send_trigger (pref : AMQP_TRANSPORT_AUTHENTICATION_MODE)
    (envs : Nat → DeviceEnv) :
    ∀ (devices : List DeviceInst) (i : Nat) (retry : Bool),
      (∃ d ∈ devices, 5 ≤ d.number_of_send_event_complete_failures) →
      (DoWork_device_loop pref envs devices i retry).2.1 = true := by
  intro devices
  induction devices with
  | nil =>
    intro i retry h
    obtain ⟨d, hd, _⟩ := h
    cases hd
  | cons d rest ih =>
    intro i retry h
    simp only [DoWork_device_loop]
    split_ifs with h1 h2
    · exact DoWork_device_loop_retry_mono pref envs rest (i + 1)
    · exact DoWork_device_loop_retry_mono pref envs rest (i + 1)
    · obtain ⟨x, hx, hx5⟩ := h
      rcases List.mem_cons.mp hx with rfl | hx
      · exact absurd hx5 h1
      · exact ih (i + 1) retry ⟨x, hx, hx5⟩

theorem mem_modifyIdx {α : Type} (f : α → α) :
    ∀ (l : List α) (i : Nat) (x : α),
      x ∈ modifyIdx f i l → x ∈ l ∨ ∃ y ∈ l, x = f y := by
  intro l
  induction l with
  | nil =>
    intro i x hx
    cases i <;> cases hx
  | cons a as ih =>
    intro i x hx
    cases i with
    | zero =>
      rcases List.mem_cons.mp hx with rfl | hx
      · exact Or.inr ⟨a, List.mem_cons_self a as, rfl⟩
      · exact Or.inl (List.mem_cons_of_mem a hx)
    | succ n =>
      rcases List.mem_cons.mp hx with heq | hx
      · exact Or.inl (by rw [heq]; exact List.mem_cons_self a as)
      · rcases ih n x hx with hmem | ⟨y, hy, rfl⟩
        · exact Or.inl (List.mem_cons_of_mem a hmem)
        · exact Or.inr ⟨y, List.mem_cons_of_mem a hy, rfl⟩

set_option maxHeartbeats 1000000 in
theorem Register_state_cases (s : Transport) (did : CStr) (key sas : Option String)
    (env : RegisterEnv) :
    (IoTHubTransport_AMQP_Common_Register s (some did) key sas env).1 = s ∨
    ∃ newdev : DeviceInst,
      (IoTHubTransport_AMQP_Common_Register s (some did) key sas env).1.registered_devices =
        s.registered_devices ++ [newdev] ∧
      newdev.number_of_previous_failures = 0 ∧
      (IoTHubTransport_AMQP_Common_Register s
          (some did) key sas env).1.is_connection_retry_required =
        s.is_connection_retry_required := by
  unfold IoTHubTransport_AMQP_Common_Register
  dsimp only
  split_ifs <;>
    first
      | (left; rfl)
      | (right; exact ⟨_, rfl, rfl, rfl⟩)

theorem establish_devices_retry (s : Transport) (env : DoWorkEnv) :
    (establish_amqp_connection s env).1.registered_devices = s.registered_devices ∧
    (establish_amqp_connection s env).1.is_connection_retry_required =
      s.is_connection_retry_required := by
  unfold establish_amqp_connection
  split_ifs <;> exact ⟨rfl, rfl⟩

theorem setOption_x509_or_generic_devices_retry (s : Transport) (b : Bool)
    (env : SetOptionEnv) :
    (setOption_x509_or_generic s b env).1.registered_devices = s.registered_devices ∧
    (setOption_x509_or_generic s b env).1.is_connection_retry_required =
      s.is_connection_retry_required := by
  unfold setOption_x509_or_generic
  constructor <;> (dsimp only; split_ifs <;> rfl)

theorem SetOption_devices_retry (s : Transport) (opt : OPTION_NAME) (nv : Nat) (bv : Bool)
    (env : SetOptionEnv) :
    (IoTHubTransport_AMQP_Common_SetOption s opt nv bv env).1.registered_devices =
      s.registered_devices ∧
    (IoTHubTransport_AMQP_Common_SetOption s opt nv bv env).1.is_connection_retry_required =
      s.is_connection_retry_required := by
  cases opt with
  | LOG_TRACE =>
    simp only [IoTHubTransport_AMQP_Common_SetOption]
    split_ifs <;> exact ⟨rfl, rfl⟩
  | X509_CERT => exact setOption_x509_or_generic_devices_retry s true env
  | X509_PRIVATE_KEY => exact setOption_x509_or_generic_devices_retry s true env
  | OTHER name => exact setOption_x509_or_generic_devices_retry s false env
  | _ => exact ⟨rfl, rfl⟩

theorem on_device_state_changed_callback_counters (p n : DEVICE_STATE) (t : Option Int)
    (d : DeviceInst) :
    (on_device_state_changed_callback p n t d).number_of_previous_failures =
      d.number_of_previous_failures := by
  unfold on_device_state_changed_callback
  split_ifs <;> rfl

theorem applyEventSendComplete_counters (r : D2C_EVENT_SEND_RESULT) (d : DeviceInst) :
    (applyEventSendComplete r d).number_of_previous_failures =
      d.number_of_previous_failures := rfl

theorem applyOp_preserves_FailuresInvariant (s : Transport) (op : Op)
    (h : FailuresInvariant s) : FailuresInvariant (applyOp s op) := by
  obtain ⟨h1, h2⟩ := h
  cases op with
  | register did key sas env =>
    cases did with
    | none => exact ⟨h1, h2⟩
    | some did =>
      rcases Register_state_cases s did key sas env with heq | ⟨newdev, hdev, hn0, hrt⟩
      · show FailuresInvariant (IoTHubTransport_AMQP_Common_Register s (some did) key sas env).1
        rw [heq]
        exact ⟨h1, h2⟩
      · constructor
        · intro d hd
          have hd2 : d ∈ s.registered_devices ++ [newdev] := by
            rw [← hdev]; exact hd
          rcases List.mem_append.mp hd2 with hd3 | hd3
          · exact h1 d hd3
          · rcases List.mem_cons.mp hd3 with heq | hd4
            · rw [heq, hn0]; omega
            · cases hd4
        · intro hf d hd
          have hf2 : s.is_connection_retry_required = false := by rw [← hrt]; exact hf
          have hd2 : d ∈ s.registered_devices ++ [newdev] := by
            rw [← hdev]; exact hd
          rcases List.mem_append.mp hd2 with hd3 | hd3
          · exact h2 hf2 d hd3
          · rcases List.mem_cons.mp hd3 with heq | hd4
            · rw [heq, hn0]; omega
            · cases hd4
  | unregister did =>
    simp only [applyOp, IoTHubTransport_AMQP_Common_Unregister]
    split_ifs with hreg
    · constructor
      · intro d hd
        exact h1 d ((List.eraseP_sublist _).subset hd)
      · intro hf d hd
        exact h2 hf d ((List.eraseP_sublist _).subset hd)
    · exact ⟨h1, h2⟩
  | doWork env =>
    by_cases hr : s.is_connection_retry_required
    · have hD : (applyOp s (Op.doWork env)) =
          { (prepare_for_connection_retry s env.retrieve_options_ok).1 with
              is_connection_retry_required := false } := by
        simp only [applyOp]
        unfold IoTHubTransport_AMQP_Common_DoWork
        simp [hr, prepare_for_connection_retry]
      rw [hD]
      constructor
      · intro d hd
        simp only [prepare_for_connection_retry, List.mem_map] at hd
        obtain ⟨d0, _, rfl⟩ := hd
        simp
      · intro _ d hd
        simp only [prepare_for_connection_retry, List.mem_map] at hd
        obtain ⟨d0, _, rfl⟩ := hd
        simp
    · have hrf : s.is_connection_retry_required = false := by
        cases hx : s.is_connection_retry_required
        · rfl
        · exact absurd hx hr
      have hw : (applyOp s (Op.doWork env)) = (DoWork_main_step s env).1 := by
        simp only [applyOp]
        unfold IoTHubTransport_AMQP_Common_DoWork
        simp only [hrf, Bool.false_eq_true, if_false]
        split_ifs <;> rfl
      rw [hw]
      unfold DoWork_main_step
      by_cases he : s.registered_devices.isEmpty
      · rw [if_pos he]
        exact ⟨h1, h2⟩
      rw [if_neg he]
      by_cases hc : s.has_amqp_connection
      · rw [if_neg (by simp [hc])]
        by_cases ho : s.amqp_connection_state = AMQP_CONNECTION_STATE.OPENED
        · rw [if_pos ho]
          have hall4 : ∀ d ∈ s.registered_devices, d.number_of_previous_failures ≤ 4 :=
            h2 hrf
          obtain ⟨l1, l2⟩ := DoWork_device_loop_counters s.preferred_authentication_mode
            env.device_envs s.registered_devices 0 s.is_connection_retry_required hall4
          exact ⟨fun d hd => l1 d hd, fun hf d hd => l2 hf d hd⟩
        · rw [if_neg ho]
          exact ⟨h1, h2⟩
      · rw [if_pos (by simp [hc])]
        obtain ⟨hdv, hrt⟩ := establish_devices_retry s env
        constructor
        · intro d hdm
          have hdm2 : d ∈ (establish_amqp_connection s env).1.registered_devices := hdm
          rw [hdv] at hdm2
          exact h1 d hdm2
        · intro hf d hdm
          have hdm2 : d ∈ (establish_amqp_connection s env).1.registered_devices := hdm
          rw [hdv] at hdm2
          have hf2 : (establish_amqp_connection s env).1.is_connection_retry_required =
              false := hf
          rw [hrt] at hf2
          exact h2 hf2 d hdm2
  | setOption opt nv bv env =>
    obtain ⟨hd, hrt⟩ := SetOption_devices_retry s opt nv bv env
    constructor
    · intro d hdm
      rw [show (applyOp s (Op.setOption opt nv bv env)).registered_devices =
        s.registered_devices from hd] at hdm
      exact h1 d hdm
    · intro hf d hdm
      rw [show (applyOp s (Op.setOption opt nv bv env)).registered_devices =
        s.registered_devices from hd] at hdm
      rw [show (applyOp s (Op.setOption opt nv bv env)).is_connection_retry_required =
        s.is_connection_retry_required from hrt] at hf
      exact h2 hf d hdm
  | deviceStateChanged idx prev new now =>
    constructor
    · intro d hd
      rcases mem_modifyIdx _ _ _ _ hd with hmem | ⟨y, hy, rfl⟩
      · exact h1 d hmem
      · rw [on_device_state_changed_callback_counters]
        exact h1 y hy
    · intro hf d hd
      rcases mem_modifyIdx _ _ _ _ hd with hmem | ⟨y, hy, rfl⟩
      · exact h2 hf d hmem
      · rw [on_device_state_changed_callback_counters]
        exact h2 hf y hy
  | connStateChanged prev new =>
    simp only [applyOp, on_amqp_connection_state_changed]
    split_ifs with hne herr
    · constructor
      · intro d hd
        exact h1 d hd
      · intro hf
        cases hf
    · exact ⟨h1, h2⟩
    · exact ⟨h1, h2⟩
  | eventSendComplete idx r =>
    constructor
    · intro d hd
      rcases mem_modifyIdx _ _ _ _ hd with hmem | ⟨y, hy, rfl⟩
      · exact h1 d hmem
      · rw [applyEventSendComplete_counters]
        exact h1 y hy
    · intro hf d hd
      rcases mem_modifyIdx _ _ _ _ hd with hmem | ⟨y, hy, rfl⟩
      · exact h2 hf d hmem
      · rw [applyEventSendComplete_counters]
        exact h2 hf y hy

theorem Reachable_FailuresInvariant (s : Transport) (h : Reachable s) :
    FailuresInvariant s := by
  induction h with
  | init =>
    constructor
    · intro d hd
      cases hd
    · intro _ d hd
      cases hd
  | step op hs ih => exact applyOp_preserves_FailuresInvariant _ op ih

theorem device_set_option_loop_first_failure (dopt : DEVICE_OPTION) (v : Nat)
    (ok : Nat → Bool) :
    ∀ (devices : List DeviceInst) (k i : Nat) (hi : i < devices.length),
      ok (k + i) = false → (∀ j, j < i → ok (k + j) = true) →
      device_set_option_loop dopt v ok k devices =
        (false,
          ((devices.take i).map
              (fun d => Eff.deviceSetOption d.device_id.addr dopt v true)) ++
            [Eff.deviceSetOption ((devices.get ⟨i, hi⟩).device_id.addr) dopt v false]) := by
  intro devices
  induction devices with
  | nil =>
    intro k i hi
    exact absurd hi (by simp)
  | cons d rest ih =>
    intro k i hi hfail hok
    cases i with
    | zero =>
      have hk : ok k = false := by simpa using hfail
      simp [device_set_option_loop, hk]
    | succ n =>
      have hk : ok k = true := by
        have h0 := hok 0 (Nat.succ_pos n)
        simpa using h0
      have hfail2 : ok (k + 1 + n) = false := by
        have hx : k + 1 + n = k + (n + 1) := by omega
        rw [hx]
        exact hfail
      have hok2 : ∀ j, j < n → ok (k + 1 + j) = true := by
        intro j hj
        have hx : k + 1 + j = k + (j + 1) := by omega
        rw [hx]
        exact hok (j + 1) (by omega)
      have hi2 : n < rest.length := Nat.lt_of_succ_lt_succ hi
      simp [device_set_option_loop, hk, ih (k + 1) n hi2 hfail2 hok2]


-- ====================================================================
-- Claim theorems
-- ====================================================================

/-- C1: the duplicate check in find_device_by_id_callback compares the
    stored clone's buffer pointer with the caller's pointer instead of
    comparing string contents, so registering a second device whose id is
    string-equal to an already-registered one (but at a different address,
    as any fresh caller string is) SUCCEEDS, leaving two registry entries
    with the same device id.  This contradicts the claim (and the source's
    own requirement comment SRS 09_064 and the callback's doc, which
    promise rejection of duplicates by device id). -/
theorem claim_C1_duplicate_id_not_rejected :
    (IoTHubTransport_AMQP_Common_Register initTransport
        (some { addr := 10, content := "device1" }) (some "key1") none c1_env_first).2 =
      true ∧
    (IoTHubTransport_AMQP_Common_Register c1_state_one
        (some { addr := 20, content := "device1" }) (some "key1") none c1_env_second).2 =
      true ∧
    (IoTHubTransport_AMQP_Common_Register c1_state_one
        (some { addr := 20, content := "device1" }) (some "key1") none c1_env_second).1.registered_devices.map
        (fun d => d.device_id.content) =
      ["device1", "device1"] := by
  decide

-- ---------- C8: state-change timeout forces ERROR_AUTH ----------

/-- C2: credential acceptance follows exactly the spec rules in order
    (both present reject; preference Unset accept; preference X509 with a
    key or SAS reject; preference CBS with both absent reject; otherwise
    accept), and the per-device authentication mode passed to
    device_create is CBS when a key or SAS token is provided, else X509. -/
theorem claim_C2_credential_rules :
    (∀ (deviceKey deviceSasToken : Option String)
        (preference : AMQP_TRANSPORT_AUTHENTICATION_MODE),
      is_device_credential_acceptable deviceKey deviceSasToken preference =
        credential_rules_spec deviceKey deviceSasToken preference) ∧
    (∀ deviceKey deviceSasToken : Option String,
      device_config_authentication_mode deviceKey deviceSasToken =
        (if deviceKey.isSome ∨ deviceSasToken.isSome then DEVICE_AUTH_MODE.CBS
         else DEVICE_AUTH_MODE.X509)) := by
  constructor
  · intro k s p
    cases k <;> cases s <;> cases p <;> rfl
  · intro k s
    rfl

/-- C3: send completions map to user confirmation codes per the table
    (Ok to Ok; CannotParse, FailSending, Unknown to Error; Timeout to
    MessageTimeout; DeviceDestroyed to BecauseDestroy); the consecutive
    send-complete failure counter resets on Ok and DeviceDestroyed and
    increments otherwise; one user callback fires per completion, in
    completion order; and the Ok, Timeout, FailSending scenario yields
    Ok, MessageTimeout, Error with the counter ending at 2. -/
theorem claim_C3_send_complete_mapping :
    (∀ (results : List D2C_EVENT_SEND_RESULT) (n : Nat),
      (process_send_completions results n).2 =
        results.map get_iothub_client_confirmation_result_from) ∧
    (get_iothub_client_confirmation_result_from D2C_EVENT_SEND_RESULT.OK =
        IOTHUB_CLIENT_CONFIRMATION_RESULT.OK ∧
      get_iothub_client_confirmation_result_from D2C_EVENT_SEND_RESULT.ERROR_CANNOT_PARSE =
        IOTHUB_CLIENT_CONFIRMATION_RESULT.ERROR ∧
      get_iothub_client_confirmation_result_from D2C_EVENT_SEND_RESULT.ERROR_FAIL_SENDING =
        IOTHUB_CLIENT_CONFIRMATION_RESULT.ERROR ∧
      get_iothub_client_confirmation_result_from D2C_EVENT_SEND_RESULT.ERROR_UNKNOWN =
        IOTHUB_CLIENT_CONFIRMATION_RESULT.ERROR ∧
      get_iothub_client_confirmation_result_from D2C_EVENT_SEND_RESULT.ERROR_TIMEOUT =
        IOTHUB_CLIENT_CONFIRMATION_RESULT.MESSAGE_TIMEOUT ∧
      get_iothub_client_confirmation_result_from D2C_EVENT_SEND_RESULT.DEVICE_DESTROYED =
        IOTHUB_CLIENT_CONFIRMATION_RESULT.BECAUSE_DESTROY) ∧
    (∀ (r : D2C_EVENT_SEND_RESULT) (n : Nat),
      update_send_complete_failures r n =
        (if r = D2C_EVENT_SEND_RESULT.OK ∨ r = D2C_EVENT_SEND_RESULT.DEVICE_DESTROYED then 0
         else n + 1)) ∧
    (process_send_completions
        [D2C_EVENT_SEND_RESULT.OK, D2C_EVENT_SEND_RESULT.ERROR_TIMEOUT,
          D2C_EVENT_SEND_RESULT.ERROR_FAIL_SENDING] 0 =
      (2, [IOTHUB_CLIENT_CONFIRMATION_RESULT.OK,
            IOTHUB_CLIENT_CONFIRMATION_RESULT.MESSAGE_TIMEOUT,
            IOTHUB_CLIENT_CONFIRMATION_RESULT.ERROR])) := by
  refine ⟨?_, by decide, ?_, by decide⟩
  · intro rs
    induction rs with
    | nil => intro n; rfl
    | cons r rest ih => intro n; simp [process_send_completions, ih]
  · intro r n
    cases r <;> rfl

/-- C4: the user disposition verdict is mapped Accepted to Accepted,
    Abandoned to Released, Rejected to Rejected, anything else to
    Released, and for a well-formed context (with the disposition-info
    allocation succeeding) exactly one device-session disposition call is
    forwarded, carrying the context's link-name and delivery-id and the
    mapped verdict, whether or not the device session accepts the call. -/
theorem claim_C4_disposition_forwarding :
    (get_device_disposition_result_from IOTHUBMESSAGE_ACCEPTED =
        DEVICE_MESSAGE_DISPOSITION_RESULT.ACCEPTED ∧
      get_device_disposition_result_from IOTHUBMESSAGE_ABANDONED =
        DEVICE_MESSAGE_DISPOSITION_RESULT.RELEASED ∧
      get_device_disposition_result_from IOTHUBMESSAGE_REJECTED =
        DEVICE_MESSAGE_DISPOSITION_RESULT.REJECTED ∧
      (∀ v : Nat, v ≠ IOTHUBMESSAGE_ACCEPTED → v ≠ IOTHUBMESSAGE_REJECTED →
        v ≠ IOTHUBMESSAGE_ABANDONED →
        get_device_disposition_result_from v = DEVICE_MESSAGE_DISPOSITION_RESULT.RELEASED)) ∧
    (∀ (mh : Nat) (tc : MESSAGE_DISPOSITION_CONTEXT) (disposition : Nat) (send_ok : Bool),
      dispositionSendCalls
          (IoTHubTransport_AMQP_Common_SendMessageDisposition
            (some { messageHandle := some mh, transportContext := some tc })
            disposition true send_ok).2 =
        [(tc.device_state_addr, tc.link_name, tc.message_id,
          get_device_disposition_result_from disposition)]) := by
  refine ⟨⟨by decide, by decide, by decide, ?_⟩, ?_⟩
  · intro v h0 h1 h2
    simp [get_device_disposition_result_from, IOTHUBMESSAGE_ACCEPTED,
      IOTHUBMESSAGE_REJECTED, IOTHUBMESSAGE_ABANDONED] at h0 h1 h2 ⊢
    simp [h0, h1, h2]
  · intro mh tc disposition send_ok
    cases send_ok <;> rfl

/-- C4 witness: a message received on link "link-1" with delivery-id 42,
    dispositioned Accepted, produces exactly one device-session
    disposition call with verdict Accepted and matching link-name and
    delivery-id; an out-of-range verdict maps to Released. -/
theorem claim_C4_disposition_forwarding_witness :
    get_device_disposition_result_from 7 = DEVICE_MESSAGE_DISPOSITION_RESULT.RELEASED ∧
    dispositionSendCalls
        (IoTHubTransport_AMQP_Common_SendMessageDisposition
          (some { messageHandle := some 1,
                  transportContext := some { device_state_addr := 5, link_name := "link-1",
                                             message_id := 42 } })
          IOTHUBMESSAGE_ACCEPTED true true).2 =
      [(5, "link-1", 42, DEVICE_MESSAGE_DISPOSITION_RESULT.ACCEPTED)] :=
  ⟨claim_C4_disposition_forwarding.1.2.2.2 7 (by decide) (by decide) (by decide),
    claim_C4_disposition_forwarding.2 1
      { device_state_addr := 5, link_name := "link-1", message_id := 42 }
      IOTHUBMESSAGE_ACCEPTED true⟩

/-- C5 counterexample: with a well-formed context on which the
    device-session disposition call fails, SendMessageDisposition returns
    Error but does NOT destroy the message payload and does NOT destroy
    the disposition context, contradicting the claim that the teardown of
    the success path is also performed on failure. -/
theorem claim_C5_disposition_failure_counterexample :
    (IoTHubTransport_AMQP_Common_SendMessageDisposition
        (some { messageHandle := some 1,
                transportContext := some { device_state_addr := 5, link_name := "link-1",
                                           message_id := 42 } })
        IOTHUBMESSAGE_ACCEPTED true false).1 = IOTHUB_CLIENT_RESULT.ERROR ∧
    DispositionEff.destroyMessage 1 ∉
      (IoTHubTransport_AMQP_Common_SendMessageDisposition
        (some { messageHandle := some 1,
                transportContext := some { device_state_addr := 5, link_name := "link-1",
                                           message_id := 42 } })
        IOTHUBMESSAGE_ACCEPTED true false).2 ∧
    DispositionEff.destroyCallbackInfo ∉
      (IoTHubTransport_AMQP_Common_SendMessageDisposition
        (some { messageHandle := some 1,
                transportContext := some { device_state_addr := 5, link_name := "link-1",
                                           message_id := 42 } })
        IOTHUBMESSAGE_ACCEPTED true false).2 := by
  decide

/-- C5 amended: when forwarding the disposition to the device session
    fails, SendMessageDisposition returns Error and destroys only the
    temporary device disposition info; the message payload and the
    disposition context are not destroyed on this path (they are destroyed
    only on success). -/
theorem claim_C5_disposition_failure_teardown :
    ∀ (mh : Nat) (tc : MESSAGE_DISPOSITION_CONTEXT) (disposition : Nat),
      (IoTHubTransport_AMQP_Common_SendMessageDisposition
          (some { messageHandle := some mh, transportContext := some tc })
          disposition true false).1 = IOTHUB_CLIENT_RESULT.ERROR ∧
      (IoTHubTransport_AMQP_Common_SendMessageDisposition
          (some { messageHandle := some mh, transportContext := some tc })
          disposition true false).2 =
        [DispositionEff.sendMessageDisposition tc.device_state_addr tc.link_name tc.message_id
            (get_device_disposition_result_from disposition),
          DispositionEff.destroyDispositionInfo] ∧
      DispositionEff.destroyMessage mh ∉
        (IoTHubTransport_AMQP_Common_SendMessageDisposition
          (some { messageHandle := some mh, transportContext := some tc })
          disposition true false).2 ∧
      DispositionEff.destroyCallbackInfo ∉
        (IoTHubTransport_AMQP_Common_SendMessageDisposition
          (some { messageHandle := some mh, transportContext := some tc })
          disposition true false).2 := by
  intro mh tc disposition
  refine ⟨rfl, rfl, ?_, ?_⟩ <;>
    simp [IoTHubTransport_AMQP_Common_SendMessageDisposition]

-- ---------- C1: duplicate registration ----------

/-- C6: in every reachable transport state, every registered device's
    number_of_previous_failures lies in [0, 5] (the lower bound holding
    because the counter is a natural number); any device at the budget of
    5 coexists only with a pending retry flag; and a work tick that finds
    a device whose consecutive send-complete failure counter has reached 5
    (with the connection opened and no retry pending) sets retry_required
    while every device stays in the registry. -/
theorem claim_C6_failure_budget :
    ∀ s : Transport, Reachable s →
      (∀ d ∈ s.registered_devices, d.number_of_previous_failures ≤ 5) ∧
      (∀ d ∈ s.registered_devices, d.number_of_previous_failures = 5 →
        s.is_connection_retry_required = true) ∧
      (∀ env : DoWorkEnv,
        s.is_connection_retry_required = false →
        s.has_amqp_connection = true →
        s.amqp_connection_state = AMQP_CONNECTION_STATE.OPENED →
        (∃ d ∈ s.registered_devices, 5 ≤ d.number_of_send_event_complete_failures) →
        (applyOp s (Op.doWork env)).is_connection_retry_required = true ∧
        (applyOp s (Op.doWork env)).registered_devices.map (fun d => d.device_id) =
          s.registered_devices.map (fun d => d.device_id)) := by
  intro s hreach
  obtain ⟨h1, h2⟩ := Reachable_FailuresInvariant s hreach
  refine ⟨h1, ?_, ?_⟩
  · intro d hd h5
    cases hx : s.is_connection_retry_required
    · have := h2 hx d hd
      omega
    · rfl
  · intro env hr hc ho hex
    have hne : ¬ s.registered_devices.isEmpty = true := by
      obtain ⟨d, hd, _⟩ := hex
      cases hl : s.registered_devices
      · rw [hl] at hd; cases hd
      · simp [hl]
    have hmain : (DoWork_main_step s env).1.is_connection_retry_required =
        (DoWork_device_loop s.preferred_authentication_mode env.device_envs
          s.registered_devices 0 s.is_connection_retry_required).2.1 ∧
        (DoWork_main_step s env).1.registered_devices =
        (DoWork_device_loop s.preferred_authentication_mode env.device_envs
          s.registered_devices 0 s.is_connection_retry_required).1 := by
      unfold DoWork_main_step
      rw [if_neg hne, if_neg (by simp [hc]), if_pos ho]
      exact ⟨rfl, rfl⟩
    have hw : (applyOp s (Op.doWork env)) = (DoWork_main_step s env).1 := by
      simp only [applyOp]
      unfold IoTHubTransport_AMQP_Common_DoWork
      simp only [hr, Bool.false_eq_true, if_false]
      split_ifs <;> rfl
    rw [hw, hmain.1, hmain.2]
    constructor
    · exact DoWork_device_loop_send_trigger s.preferred_authentication_mode env.device_envs
        s.registered_devices 0 s.is_connection_retry_required hex
    · exact DoWork_device_loop_ids s.preferred_authentication_mode env.device_envs
        s.registered_devices 0 s.is_connection_retry_required

/-- C6 witness: on the concrete reachable state with the send-complete
    budget exhausted, the next work tick sets retry_required and keeps the
    device registered. -/
theorem claim_C6_failure_budget_witness :
    (applyOp c6_state (Op.doWork allOkDoWorkEnv)).is_connection_retry_required = true ∧
    (applyOp c6_state (Op.doWork allOkDoWorkEnv)).registered_devices.map
        (fun d => d.device_id) =
      c6_state.registered_devices.map (fun d => d.device_id) :=
  (claim_C6_failure_budget c6_state
      (Reachable_foldl c6_ops initTransport Reachable.init)).2.2
    allOkDoWorkEnv (by decide) (by decide) (by decide) (by decide)

/-- C7: a tick that begins with retry_required = true runs no per-device
    work; it invokes device_stop on exactly the devices not in Stopped (in
    registry order), destroys the connection object and then the TLS
    stream, zeroes both failure counters of every registered device, keeps
    every device in the registry, and clears retry_required. -/
theorem claim_C7_retry_tick :
    ∀ (s : Transport) (env : DoWorkEnv),
      s.is_connection_retry_required = true →
      s.has_tls_io = true →
      (IoTHubTransport_AMQP_Common_DoWork s env).1.has_amqp_connection = false ∧
      (IoTHubTransport_AMQP_Common_DoWork s env).1.has_tls_io = false ∧
      (IoTHubTransport_AMQP_Common_DoWork s env).1.is_connection_retry_required = false ∧
      (∀ d ∈ (IoTHubTransport_AMQP_Common_DoWork s env).1.registered_devices,
        d.number_of_previous_failures = 0 ∧
          d.number_of_send_event_complete_failures = 0) ∧
      (IoTHubTransport_AMQP_Common_DoWork s env).1.registered_devices.map
          (fun d => d.device_id) =
        s.registered_devices.map (fun d => d.device_id) ∧
      (IoTHubTransport_AMQP_Common_DoWork s env).2 =
        Eff.saveTlsOptions ::
          (((s.registered_devices.filter
              (fun d => ¬ d.device_state = DEVICE_STATE.STOPPED)).map
            (fun d => Eff.deviceStop d.device_id.addr)) ++
            [Eff.amqpConnectionDestroy, Eff.tlsIoDestroy]) ∧
      (∀ e ∈ (IoTHubTransport_AMQP_Common_DoWork s env).2, isPerDeviceWork e = false) := by
  intro s env hretry htls
  have hD : IoTHubTransport_AMQP_Common_DoWork s env =
      ({ (prepare_for_connection_retry s env.retrieve_options_ok).1 with
          is_connection_retry_required := false },
        (prepare_for_connection_retry s env.retrieve_options_ok).2) := by
    unfold IoTHubTransport_AMQP_Common_DoWork
    simp [hretry, prepare_for_connection_retry]
  rw [hD]
  have heff : (prepare_for_connection_retry s env.retrieve_options_ok).2 =
      Eff.saveTlsOptions ::
        (((s.registered_devices.filter
            (fun d => ¬ d.device_state = DEVICE_STATE.STOPPED)).map
          (fun d => Eff.deviceStop d.device_id.addr)) ++
          [Eff.amqpConnectionDestroy, Eff.tlsIoDestroy]) := by
    simp [prepare_for_connection_retry, htls]
  refine ⟨rfl, rfl, rfl, ?_, ?_, heff, ?_⟩
  · intro d hd
    simp only [prepare_for_connection_retry, List.mem_map] at hd
    obtain ⟨d0, _, rfl⟩ := hd
    exact ⟨rfl, rfl⟩
  · simp [prepare_for_connection_retry, List.map_map]
  · intro e he
    rw [heff] at he
    rcases List.mem_cons.mp he with rfl | he2
    · rfl
    rcases List.mem_append.mp he2 with hm | hm
    · obtain ⟨d0, _, rfl⟩ := List.mem_map.mp hm
      rfl
    · simp only [List.mem_cons] at hm
      rcases hm with rfl | rfl | h0
      · rfl
      · rfl
      · exact absurd h0 (List.not_mem_nil e)

/-- C7 witness: on the concrete retry-flagged transport, the tick removes
    the connection and clears the retry flag. -/
theorem claim_C7_retry_tick_witness :
    (IoTHubTransport_AMQP_Common_DoWork c7_state allOkDoWorkEnv).1.has_amqp_connection =
      false ∧
    (IoTHubTransport_AMQP_Common_DoWork c7_state allOkDoWorkEnv).1.is_connection_retry_required =
      false :=
  ⟨(claim_C7_retry_tick c7_state allOkDoWorkEnv rfl rfl).1,
    (claim_C7_retry_tick c7_state allOkDoWorkEnv rfl rfl).2.2.1⟩

end AmqpCommon

namespace AmqpCommon

/-- C8: for a device in state Starting or Stopping during a tick, the
    device is forced to ErrorAuth and the per-device tick reports failure
    both when the recorded timestamp is the indefinite sentinel or the
    clock cannot be read, and when the elapsed time since the last state
    change is at least max_state_change_timeout_secs. -/
theorem claim_C8_state_change_timeout :
    ∀ (preferred : AMQP_TRANSPORT_AUTHENTICATION_MODE) (d : DeviceInst) (env : DeviceEnv),
      (d.device_state = DEVICE_STATE.STARTING ∨ d.device_state = DEVICE_STATE.STOPPING) →
      (((d.time_of_last_state_change = none ∨ env.now = none) →
        (IoTHubTransport_AMQP_Common_Device_DoWork preferred d env).1.device_state =
            DEVICE_STATE.ERROR_AUTH ∧
        (IoTHubTransport_AMQP_Common_Device_DoWork preferred d env).2.1 = false) ∧
      (∀ t c : Int, d.time_of_last_state_change = some t → env.now = some c →
        (d.max_state_change_timeout_secs : Int) ≤ c - t →
        (IoTHubTransport_AMQP_Common_Device_DoWork preferred d env).1.device_state =
            DEVICE_STATE.ERROR_AUTH ∧
        (IoTHubTransport_AMQP_Common_Device_DoWork preferred d env).2.1 = false)) := by
  intro preferred d env hss
  have hne : ¬ d.device_state = DEVICE_STATE.STARTED := by
    rcases hss with h | h <;> simp [h]
  have hns : ¬ d.device_state = DEVICE_STATE.STOPPED := by
    rcases hss with h | h <;> simp [h]
  constructor
  · intro hnone
    have hfail : is_timeout_reached d.time_of_last_state_change
        d.max_state_change_timeout_secs env.now = TIMEOUT_CHECK_RESULT.failure := by
      rcases hnone with h | h
      · simp [is_timeout_reached, h]
      · cases htime : d.time_of_last_state_change <;> simp [is_timeout_reached, h]
    simp [IoTHubTransport_AMQP_Common_Device_DoWork, hne, hns, hss, hfail]
  · intro t c ht hc hle
    have htimed : is_timeout_reached d.time_of_last_state_change
        d.max_state_change_timeout_secs env.now = TIMEOUT_CHECK_RESULT.timedOut := by
      simp [is_timeout_reached, ht, hc, hle]
    simp [IoTHubTransport_AMQP_Common_Device_DoWork, hne, hns, hss, htimed]

/-- C8 witness: a device Starting since time 0 with the default 60s
    timeout, observed at time 61, is forced to ErrorAuth with the tick
    failed; the same device observed when the clock cannot be read is
    also forced to ErrorAuth with the tick failed. -/
theorem claim_C8_state_change_timeout_witness :
    ((IoTHubTransport_AMQP_Common_Device_DoWork AMQP_TRANSPORT_AUTHENTICATION_MODE.CBS
        { device_id := { addr := 100, content := "device1" },
          device_state := DEVICE_STATE.STARTING,
          number_of_previous_failures := 0,
          number_of_send_event_complete_failures := 0,
          time_of_last_state_change := some 0,
          max_state_change_timeout_secs := 60 }
        { get_session_ok := true, get_cbs_ok := true, start_ok := true, now := some 61,
          stop_ok := true, send_ok := true, completions := [] }).1.device_state =
      DEVICE_STATE.ERROR_AUTH) ∧
    ((IoTHubTransport_AMQP_Common_Device_DoWork AMQP_TRANSPORT_AUTHENTICATION_MODE.CBS
        { device_id := { addr := 100, content := "device1" },
          device_state := DEVICE_STATE.STARTING,
          number_of_previous_failures := 0,
          number_of_send_event_complete_failures := 0,
          time_of_last_state_change := some 0,
          max_state_change_timeout_secs := 60 }
        { get_session_ok := true, get_cbs_ok := true, start_ok := true, now := none,
          stop_ok := true, send_ok := true, completions := [] }).1.device_state =
      DEVICE_STATE.ERROR_AUTH) :=
  ⟨((claim_C8_state_change_timeout AMQP_TRANSPORT_AUTHENTICATION_MODE.CBS
      { device_id := { addr := 100, content := "device1" },
        device_state := DEVICE_STATE.STARTING,
        number_of_previous_failures := 0,
        number_of_send_event_complete_failures := 0,
        time_of_last_state_change := some 0,
        max_state_change_timeout_secs := 60 }
      { get_session_ok := true, get_cbs_ok := true, start_ok := true, now := some 61,
        stop_ok := true, send_ok := true, completions := [] }
      (Or.inl rfl)).2 0 61 rfl rfl (by decide)).1,
    ((claim_C8_state_change_timeout AMQP_TRANSPORT_AUTHENTICATION_MODE.CBS
      { device_id := { addr := 100, content := "device1" },
        device_state := DEVICE_STATE.STARTING,
        number_of_previous_failures := 0,
        number_of_send_event_complete_failures := 0,
        time_of_last_state_change := some 0,
        max_state_change_timeout_secs := 60 }
      { get_session_ok := true, get_cbs_ok := true, start_ok := true, now := none,
        stop_ok := true, send_ok := true, completions := [] }
      (Or.inl rfl)).1 (Or.inr rfl)).1⟩

-- ---------- C9: the preferred authentication mode is write-once ----------

/-- C9: once the preferred authentication mode is CBS or X509, no
    sequence of operations (register, unregister, set_option, work ticks,
    or collaborator callbacks) ever changes it. -/
theorem claim_C9_auth_mode_write_once :
    ∀ (s : Transport) (ops : List Op),
      (s.preferred_authentication_mode = AMQP_TRANSPORT_AUTHENTICATION_MODE.CBS ∨
        s.preferred_authentication_mode = AMQP_TRANSPORT_AUTHENTICATION_MODE.X509) →
      (ops.foldl applyOp s).preferred_authentication_mode =
        s.preferred_authentication_mode := by
  intro s ops
  induction ops generalizing s with
  | nil => intro _; rfl
  | cons op rest ih =>
    intro hcx
    have hne : s.preferred_authentication_mode ≠
        AMQP_TRANSPORT_AUTHENTICATION_MODE.NOT_SET := by
      rcases hcx with h | h <;> simp [h]
    have hstep := applyOp_preserves_auth_mode s op hne
    have htail := ih (applyOp s op) (by rw [hstep]; exact hcx)
    calc (rest.foldl applyOp (applyOp s op)).preferred_authentication_mode
        = (applyOp s op).preferred_authentication_mode := htail
      _ = s.preferred_authentication_mode := hstep

/-- C9 witness: after a first CBS registration fixes the mode, a
    subsequent x509 option, an unregister, a second registration and a
    work tick leave the preferred mode CBS. -/
theorem claim_C9_auth_mode_write_once_witness :
    ([Op.setOption OPTION_NAME.X509_CERT 0 false allOkSetOptionEnv,
        Op.unregister { addr := 100, content := "device1" },
        Op.register (some { addr := 30, content := "device2" }) none (some "sas")
          (allOkRegisterEnv 300),
        Op.doWork allOkDoWorkEnv].foldl
        applyOp c1_state_one).preferred_authentication_mode =
      c1_state_one.preferred_authentication_mode :=
  claim_C9_auth_mode_write_once c1_state_one _ (Or.inl (by decide))

-- ---------- C7: the retry tick ----------

/-- C10: on a device-scoped option, the new value is stored as the
    transport default before propagation; when device_set_option fails on
    the device at position i (all earlier ones succeeding), SetOption
    returns Error, the stored default keeps the new value (no rollback),
    and exactly the devices before position i received the new value
    (position i received the failing call; none after were visited). -/
theorem claim_C10_option_stored_before_propagation :
    ∀ (s : Transport) (option : OPTION_NAME) (dopt : DEVICE_OPTION) (nv : Nat) (bv : Bool)
      (env : SetOptionEnv) (i : Nat) (hi : i < s.registered_devices.length),
      get_device_option_name_from option = some dopt →
      env.device_set_option_ok i = false →
      (∀ j, j < i → env.device_set_option_ok j = true) →
      (IoTHubTransport_AMQP_Common_SetOption s option nv bv env).2.1 =
        IOTHUB_CLIENT_RESULT.ERROR ∧
      stored_device_default (IoTHubTransport_AMQP_Common_SetOption s option nv bv env).1
        option = some nv ∧
      (IoTHubTransport_AMQP_Common_SetOption s option nv bv env).2.2 =
        ((s.registered_devices.take i).map
            (fun d => Eff.deviceSetOption d.device_id.addr dopt nv true)) ++
          [Eff.deviceSetOption ((s.registered_devices.get ⟨i, hi⟩).device_id.addr) dopt nv
            false] := by
  intro s option dopt nv bv env i hi hname hfail hok
  have hloop := device_set_option_loop_first_failure dopt nv env.device_set_option_ok
    s.registered_devices 0 i hi (by simpa using hfail)
    (by intro j hj; simpa using hok j hj)
  cases option <;> simp only [get_device_option_name_from] at hname <;>
    cases hname <;>
    refine ⟨?_, ?_, ?_⟩ <;>
    simp [IoTHubTransport_AMQP_Common_SetOption,
      IoTHubTransport_AMQP_Common_Device_SetOption, get_device_option_name_from,
      hloop, stored_device_default]

/-- C10 witness: setting sas_token_lifetime to 7200 with propagation
    failing on the second device returns Error, keeps 7200 as the stored
    default, and the first device received the new value. -/
theorem claim_C10_option_stored_before_propagation_witness :
    (IoTHubTransport_AMQP_Common_SetOption c10_state OPTION_NAME.SAS_TOKEN_LIFETIME
        7200 false c10_env).2.1 = IOTHUB_CLIENT_RESULT.ERROR ∧
    stored_device_default (IoTHubTransport_AMQP_Common_SetOption c10_state
        OPTION_NAME.SAS_TOKEN_LIFETIME 7200 false c10_env).1
      OPTION_NAME.SAS_TOKEN_LIFETIME = some 7200 ∧
    (IoTHubTransport_AMQP_Common_SetOption c10_state OPTION_NAME.SAS_TOKEN_LIFETIME
        7200 false c10_env).2.2 =
      ((c10_state.registered_devices.take 1).map
          (fun d => Eff.deviceSetOption d.device_id.addr
            DEVICE_OPTION.SAS_TOKEN_LIFETIME_SECS 7200 true)) ++
        [Eff.deviceSetOption
          ((c10_state.registered_devices.get ⟨1, by decide⟩).device_id.addr)
          DEVICE_OPTION.SAS_TOKEN_LIFETIME_SECS 7200 false] :=
  claim_C10_option_stored_before_propagation c10_state OPTION_NAME.SAS_TOKEN_LIFETIME
    DEVICE_OPTION.SAS_TOKEN_LIFETIME_SECS 7200 false c10_env 1 (by decide) rfl rfl
    (by intro j hj; have hj0 : j = 0 := by omega
        subst hj0; rfl)


end AmqpCommon
